import Mathlib

/-!
Verification of the vo-app AI orchestrator core.

This file is a shallow embedding of the resilient multi-backend
orchestrator of the vo-app repository: the per-backend circuit breaker
and the dispatch round of `src/ai_orchestrator/consensus_engine.py`, the
consensus engine of the same file, the content quality controller of
`src/utils/quality_controller.py`, and the bounded quality-retry loop of
`process_article_with_ai` in `src/main.py`, together with theorems
settling the specified behavioural properties.

Timestamps (Python `time.time()` floats) are modelled as rationals, and
every operation that reads the clock takes the current time `now` as an
explicit argument.
-/

namespace VoApp

/-- States of the breaker in `consensus_engine.py` (`self._state`, one of
the string constants `"CLOSED"`, `"OPEN"`, `"HALF_OPEN"`). -/
inductive CBState where
  | CLOSED
  | OPEN
  | HALF_OPEN
deriving DecidableEq, Repr

/-- The mutable attributes of `CircuitBreaker` in
`src/ai_orchestrator/consensus_engine.py`, plus its configuration. -/
structure CircuitBreaker where
  name : String
  failure_threshold : Nat
  recovery_timeout : ℚ
  reset_timeout : ℚ
  state : CBState
  failure_count : Nat
  last_failure_time : ℚ
  last_success_time : ℚ
deriving DecidableEq, Repr

/-- `CircuitBreaker.__init__`: a fresh breaker starts `CLOSED` with zero
failures and zeroed timestamps. -/
def CircuitBreaker.init (name : String) (failure_threshold : Nat)
    (recovery_timeout reset_timeout : ℚ) : CircuitBreaker :=
  { name := name
    failure_threshold := failure_threshold
    recovery_timeout := recovery_timeout
    reset_timeout := reset_timeout
    state := CBState.CLOSED
    failure_count := 0
    last_failure_time := 0
    last_success_time := 0 }

/-- `CircuitBreaker.is_open`: `self._state == "OPEN"`. -/
def CircuitBreaker.is_open (b : CircuitBreaker) : Bool :=
  b.state == CBState.OPEN

/-- `CircuitBreaker.before_request`: decides whether a request may
proceed, and (when `OPEN` with the recovery timeout strictly elapsed)
transitions to `HALF_OPEN` as a side effect.  Returns the decision
together with the updated breaker. -/
def CircuitBreaker.before_request (b : CircuitBreaker) (now : ℚ) :
    Bool × CircuitBreaker :=
  match b.state with
  | CBState.OPEN =>
      if now - b.last_failure_time > b.recovery_timeout then
        (true, { b with state := CBState.HALF_OPEN })
      else
        (false, b)
  | CBState.HALF_OPEN => (true, b)
  | CBState.CLOSED => (true, b)

/-- `CircuitBreaker.on_success`: records the success time; a `HALF_OPEN`
probe success closes the breaker and resets the failure counter, and a
`CLOSED` success resets the counter once `reset_timeout` has elapsed
since the last failure. -/
def CircuitBreaker.on_success (b : CircuitBreaker) (now : ℚ) : CircuitBreaker :=
  let b1 := { b with last_success_time := now }
  match b.state with
  | CBState.HALF_OPEN => { b1 with state := CBState.CLOSED, failure_count := 0 }
  | CBState.CLOSED =>
      if now - b.last_failure_time > b.reset_timeout then
        { b1 with failure_count := 0 }
      else b1
  | CBState.OPEN => b1

/-- `CircuitBreaker.on_failure`: increments the failure counter and
stamps the failure time; a `HALF_OPEN` failure reopens immediately, and
a `CLOSED` breaker opens once the (incremented) counter reaches the
threshold. -/
def CircuitBreaker.on_failure (b : CircuitBreaker) (now : ℚ) : CircuitBreaker :=
  let b1 := { b with failure_count := b.failure_count + 1, last_failure_time := now }
  match b.state with
  | CBState.HALF_OPEN => { b1 with state := CBState.OPEN }
  | CBState.CLOSED =>
      if b1.failure_count ≥ b.failure_threshold then
        { b1 with state := CBState.OPEN }
      else b1
  | CBState.OPEN => b1

/-- A sequence of consecutive `on_failure()` calls at the given
timestamps, with no intervening `on_success()`. -/
def failAll (b : CircuitBreaker) (ts : List ℚ) : CircuitBreaker :=
  ts.foldl (fun cb t => cb.on_failure t) b

lemma on_failure_state_open {b : CircuitBreaker} (t : ℚ)
    (h : b.state = CBState.OPEN) : (b.on_failure t).state = CBState.OPEN := by
  simp [CircuitBreaker.on_failure, h]

lemma failAll_state_open {b : CircuitBreaker} {ts : List ℚ}
    (h : b.state = CBState.OPEN) : (failAll b ts).state = CBState.OPEN := by
  induction ts generalizing b with
  | nil => simpa [failAll] using h
  | cons t rest ih =>
      simpa [failAll] using ih (on_failure_state_open t h)

lemma on_failure_threshold (b : CircuitBreaker) (t : ℚ) :
    (b.on_failure t).failure_threshold = b.failure_threshold := by
  unfold CircuitBreaker.on_failure
  rcases b with ⟨n, ft, rt, st, s, fc, lf, ls⟩
  cases s <;> simp <;> split <;> simp

lemma on_failure_closed_cases (b : CircuitBreaker) (t : ℚ)
    (h : b.state = CBState.CLOSED) :
    (b.failure_count + 1 ≥ b.failure_threshold ∧ (b.on_failure t).state = CBState.OPEN) ∨
    (b.failure_count + 1 < b.failure_threshold ∧ (b.on_failure t).state = CBState.CLOSED ∧
      (b.on_failure t).failure_count = b.failure_count + 1) := by
  by_cases hge : b.failure_count + 1 ≥ b.failure_threshold
  · left
    constructor
    · exact hge
    · simp [CircuitBreaker.on_failure, h, hge]
  · right
    refine ⟨Nat.lt_of_not_le hge, ?_, ?_⟩ <;> simp [CircuitBreaker.on_failure, h, hge]

lemma failAll_opens (ts : List ℚ) (b : CircuitBreaker)
    (hclosed : b.state = CBState.CLOSED)
    (hle : b.failure_threshold ≤ b.failure_count + ts.length)
    (hne : ts ≠ []) : (failAll b ts).state = CBState.OPEN := by
  induction ts generalizing b with
  | nil => exact absurd rfl hne
  | cons t rest ih =>
      rcases on_failure_closed_cases b t hclosed with ⟨_, hopen⟩ | ⟨hlt, hclosed1, hcount1⟩
      · simpa [failAll] using @failAll_state_open _ rest hopen
      · have hrest : rest ≠ [] := by
          intro hnil
          subst hnil
          simp at hle
          omega
        have hle1 : (b.on_failure t).failure_threshold ≤
            (b.on_failure t).failure_count + rest.length := by
          rw [on_failure_threshold, hcount1]
          simp at hle
          omega
        simpa [failAll] using ih (b.on_failure t) hclosed1 hle1 hrest

lemma on_failure_count (b : CircuitBreaker) (t : ℚ) :
    (b.on_failure t).failure_count = b.failure_count + 1 := by
  unfold CircuitBreaker.on_failure
  rcases b with ⟨n, ft, rt, st, s, fc, lf, ls⟩
  cases s <;> simp <;> split <;> simp

lemma on_failure_recovery_timeout (b : CircuitBreaker) (t : ℚ) :
    (b.on_failure t).recovery_timeout = b.recovery_timeout := by
  unfold CircuitBreaker.on_failure
  rcases b with ⟨n, ft, rt, st, s, fc, lf, ls⟩
  cases s <;> simp <;> split <;> simp

/-- Claim C4: whenever a breaker is `Open` and strictly more than
`recovery_timeout` seconds have elapsed since `last_failure_time`, the
very next eligibility check (`before_request`) returns `true` and, as a
side effect of that same call, the breaker state becomes `HALF_OPEN`. -/
theorem c4_open_recovery (b : CircuitBreaker) (now : ℚ)
    (hopen : b.state = CBState.OPEN)
    (helapsed : now - b.last_failure_time > b.recovery_timeout) :
    (b.before_request now).1 = true ∧
    (b.before_request now).2.state = CBState.HALF_OPEN := by
  constructor <;> simp [CircuitBreaker.before_request, hopen, helapsed]

/-- An `Open` breaker with its last failure at time 10 and a 60-second
recovery timeout. -/
def cbOpenAt10 : CircuitBreaker :=
  { name := "Groq"
    failure_threshold := 3
    recovery_timeout := 60
    reset_timeout := 300
    state := CBState.OPEN
    failure_count := 3
    last_failure_time := 10
    last_success_time := 0 }

theorem c4_open_recovery_witness :
    (cbOpenAt10.before_request 100).1 = true ∧
    (cbOpenAt10.before_request 100).2.state = CBState.HALF_OPEN :=
  c4_open_recovery cbOpenAt10 100 (by decide) (by norm_num [cbOpenAt10])

/-- Claim C5: starting `Closed` with failure counter 0, after
`failure_threshold` consecutive `on_failure()` calls (at any timestamps)
with no intervening success, the breaker is `Open`, and while the
recovery timeout has not strictly elapsed, `before_request` denies the
request. -/
theorem c5_threshold_opens (b : CircuitBreaker) (ts : List ℚ)
    (hclosed : b.state = CBState.CLOSED) (hzero : b.failure_count = 0)
    (hlen : ts.length = b.failure_threshold) (hpos : 0 < b.failure_threshold) :
    (failAll b ts).state = CBState.OPEN ∧
    ∀ now : ℚ, now - (failAll b ts).last_failure_time ≤ (failAll b ts).recovery_timeout →
      ((failAll b ts).before_request now).1 = false := by
  have hne : ts ≠ [] := by
    intro hnil
    rw [hnil] at hlen
    simp at hlen
    omega
  have hopen : (failAll b ts).state = CBState.OPEN := by
    apply failAll_opens ts b hclosed _ hne
    omega
  refine ⟨hopen, fun now hle => ?_⟩
  have hnot : ¬ (now - (failAll b ts).last_failure_time > (failAll b ts).recovery_timeout) :=
    not_lt.mpr hle
  simp [CircuitBreaker.before_request, hopen, hnot]

theorem c5_threshold_opens_witness :
    (failAll (CircuitBreaker.init "Groq" 3 60 300) [1, 2, 3]).state = CBState.OPEN ∧
    ((failAll (CircuitBreaker.init "Groq" 3 60 300) [1, 2, 3]).before_request 50).1 = false :=
  ⟨(c5_threshold_opens (CircuitBreaker.init "Groq" 3 60 300) [1, 2, 3]
      (by decide) (by decide) (by decide) (by decide)).1,
   (c5_threshold_opens (CircuitBreaker.init "Groq" 3 60 300) [1, 2, 3]
      (by decide) (by decide) (by decide) (by decide)).2 50
      (by norm_num [failAll, CircuitBreaker.init, CircuitBreaker.on_failure])⟩

/-- Claim C6: from `HALF_OPEN`, with any prior failure counter, a single
`on_failure()` reopens the breaker, and a single `on_success()` closes
it and resets the failure counter to 0. -/
theorem c6_half_open_transitions (b : CircuitBreaker) (now : ℚ)
    (h : b.state = CBState.HALF_OPEN) :
    (b.on_failure now).state = CBState.OPEN ∧
    (b.on_success now).state = CBState.CLOSED ∧
    (b.on_success now).failure_count = 0 := by
  refine ⟨?_, ?_, ?_⟩ <;> simp [CircuitBreaker.on_failure, CircuitBreaker.on_success, h]

/-- A `HALF_OPEN` breaker with a nonzero failure counter. -/
def cbHalfOpenAt7 : CircuitBreaker :=
  { name := "Gemini"
    failure_threshold := 3
    recovery_timeout := 60
    reset_timeout := 300
    state := CBState.HALF_OPEN
    failure_count := 7
    last_failure_time := 40
    last_success_time := 0 }

theorem c6_half_open_transitions_witness :
    (cbHalfOpenAt7.on_failure 90).state = CBState.OPEN ∧
    (cbHalfOpenAt7.on_success 90).state = CBState.CLOSED ∧
    (cbHalfOpenAt7.on_success 90).failure_count = 0 :=
  c6_half_open_transitions cbHalfOpenAt7 90 (by decide)

/-- `AIConfig` (pydantic model in `consensus_engine.py`): identity, URL,
API-key environment variable, selection weight, tier, optional model. -/
structure AIConfig where
  name : String
  url : String
  api_key_env : String
  weight : ℚ
  tier : Nat
  model : Option String
deriving DecidableEq, Repr

/-- Breaker tuning of `OrchestratorConfig` in `consensus_engine.py`. -/
structure OrchestratorConfig where
  ai_services : List AIConfig
  timeout_per_ai : ℚ
  circuit_breaker_failure_threshold : Nat
  circuit_breaker_recovery_timeout : ℚ
  circuit_breaker_reset_timeout : ℚ
deriving Repr

/-- Result of the environment lookup `os.getenv(...)`: `none` when the
variable is unset.  Python truthiness also treats the empty string as
missing (`if not api_key` and `api_key or "DUMMY_KEY"`). -/
def envTruthy : Option String → Bool
  | none => false
  | some s => s ≠ ""

/-- The per-service body of `AIOrchestrator.__init__` (lines 207-219 of
`consensus_engine.py`): build a fresh breaker from the config, record one
`on_failure()` when the API-key environment variable is falsy, and store
the key (or `"DUMMY_KEY"`). -/
def initService (config : OrchestratorConfig) (env : String → Option String)
    (now : ℚ) (ai : AIConfig) : CircuitBreaker × String :=
  let cb := CircuitBreaker.init ai.name config.circuit_breaker_failure_threshold
    config.circuit_breaker_recovery_timeout config.circuit_breaker_reset_timeout
  let api_key := env ai.api_key_env
  let cb1 := if envTruthy api_key then cb else cb.on_failure now
  (cb1, if envTruthy api_key then api_key.getD "DUMMY_KEY" else "DUMMY_KEY")

/-- `AIOrchestrator.__init__`: one breaker and one stored key per
configured service; construction is total (never fatal). -/
def orchestratorInit (config : OrchestratorConfig) (env : String → Option String)
    (now : ℚ) : List (String × CircuitBreaker × String) :=
  config.ai_services.map (fun ai => (ai.name, initService config env now ai))

/-- The possible outcomes of the raw backend interaction inside the
`try` block of `AIOrchestrator._call_ai_service`: a response whose
extracted content is `text`, an `httpx.TimeoutException`, an
`httpx.RequestError` (transport failure, including non-2xx raised by
`raise_for_status`), or any other exception. -/
inductive CallOutcome where
  | success (text : String)
  | timeout
  | transportError
  | otherError
deriving DecidableEq, Repr

/-- Python exception classes that can escape the `try` block of
`_call_ai_service`. -/
inductive PyExc where
  | timeoutException
  | requestError
  | valueError
  | otherException
deriving DecidableEq, Repr

/-- The `try` block of `_call_ai_service` up to the content check: falsy
extracted content raises `ValueError`, transport problems raise the
corresponding `httpx` exceptions. -/
def tryBlock : CallOutcome → Except PyExc String
  | CallOutcome.success t => if t ≠ "" then Except.ok t else Except.error PyExc.valueError
  | CallOutcome.timeout => Except.error PyExc.timeoutException
  | CallOutcome.transportError => Except.error PyExc.requestError
  | CallOutcome.otherError => Except.error PyExc.otherException

/-- `AIOrchestrator._call_ai_service`: consult the breaker via
`before_request`, run the call, record the outcome on the breaker.  The
three `except` clauses (`httpx.TimeoutException`, `httpx.RequestError`,
`Exception`) jointly catch every exception of the `try` block, call
`on_failure()` and fall through to `return None`, so the function always
returns a plain value — it never propagates an exception. -/
def call_ai_service (cb : CircuitBreaker) (now : ℚ) (outcome : CallOutcome) :
    Option String × CircuitBreaker :=
  match cb.before_request now with
  | (false, cb1) => (none, cb1)
  | (true, cb1) =>
      match tryBlock outcome with
      | Except.ok t => (some t, cb1.on_success now)
      | Except.error _ => (none, cb1.on_failure now)

/-- One dispatch round of `AIOrchestrator.get_consensus` (lines 329-352
of `consensus_engine.py`): each service is paired with its breaker and
with the outcome its backend call would produce this round.  The round
starts one work unit for exactly the services whose breaker is not
`OPEN` (`if not cb.is_open()`), gathers their results in submission
order, and keeps the non-`None` results as `successful_responses`.
Returns the successful responses and every service's updated breaker. -/
def dispatchRound (services : List (AIConfig × CircuitBreaker × CallOutcome))
    (now : ℚ) : List (String × String) × List (String × CircuitBreaker) :=
  let results := services.map (fun s =>
    if s.2.1.is_open then
      (s.1.name, none, s.2.1)
    else
      let r := call_ai_service s.2.1 now s.2.2
      (s.1.name, r.1, r.2))
  (results.filterMap (fun r => r.2.1.map (fun t => (r.1, t))),
   results.map (fun r => (r.1, r.2.2)))

lemma before_request_not_open {cb : CircuitBreaker} (h : cb.is_open = false)
    (now : ℚ) : cb.before_request now = (true, cb) := by
  unfold CircuitBreaker.is_open at h
  unfold CircuitBreaker.before_request
  cases hs : cb.state
  · rfl
  · rw [hs] at h
    simp at h
  · rfl

/-- The Tier-1 Groq entry of `REAL_CONFIG_DICT` in `consensus_engine.py`. -/
def aiGroq : AIConfig :=
  { name := "Groq"
    url := "https://api.groq.com/openai/v1/chat/completions"
    api_key_env := "GROQ_API_KEY"
    weight := 12/10
    tier := 1
    model := none }

/-- Claim C3 (code bug): a backend whose breaker is `Open` with the
recovery timeout strictly elapsed is eligible per `before_request` —
which would return `true` and flip the breaker to `HALF_OPEN` — yet the
dispatch round of `AIOrchestrator.get_consensus` filters on
`cb.is_open()` alone, so at time 100 (40 seconds past the 60-second
timeout of `cbOpenAt10`) the backend gets no work unit, no response is
collected from it, and its breaker stays `OPEN` untouched. -/
theorem c3_open_backend_skipped :
    (dispatchRound [(aiGroq, cbOpenAt10, CallOutcome.success "hello")] 100).1 = [] ∧
    (dispatchRound [(aiGroq, cbOpenAt10, CallOutcome.success "hello")] 100).2 =
      [("Groq", cbOpenAt10)] ∧
    (cbOpenAt10.before_request 100).1 = true ∧
    (cbOpenAt10.before_request 100).2.state = CBState.HALF_OPEN := by
  refine ⟨?_, ?_, ?_, ?_⟩ <;>
    norm_num [dispatchRound, cbOpenAt10, aiGroq, CircuitBreaker.is_open,
      CircuitBreaker.before_request]

/-- Claim C7: in a three-backend round where backend B's call raises a
timeout or transport error, the error is absorbed at the dispatcher
boundary into one `on_failure()` on B's breaker (the round still returns
a plain value, never an exception), while the two other backends'
successful outcomes are both collected. -/
theorem c7_failure_isolation (aiA aiB aiC : AIConfig) (cbA cbB cbC : CircuitBreaker)
    (tA tC : String) (ob : CallOutcome) (now : ℚ)
    (hA : cbA.is_open = false) (hB : cbB.is_open = false) (hC : cbC.is_open = false)
    (htA : tA ≠ "") (htC : tC ≠ "")
    (hob : ob = CallOutcome.timeout ∨ ob = CallOutcome.transportError) :
    (dispatchRound [(aiA, cbA, CallOutcome.success tA), (aiB, cbB, ob),
      (aiC, cbC, CallOutcome.success tC)] now).1 = [(aiA.name, tA), (aiC.name, tC)] ∧
    (dispatchRound [(aiA, cbA, CallOutcome.success tA), (aiB, cbB, ob),
      (aiC, cbC, CallOutcome.success tC)] now).2 =
      [(aiA.name, cbA.on_success now), (aiB.name, cbB.on_failure now),
       (aiC.name, cbC.on_success now)] := by
  have hcallA : call_ai_service cbA now (CallOutcome.success tA) =
      (some tA, cbA.on_success now) := by
    simp [call_ai_service, before_request_not_open hA, tryBlock, htA]
  have hcallC : call_ai_service cbC now (CallOutcome.success tC) =
      (some tC, cbC.on_success now) := by
    simp [call_ai_service, before_request_not_open hC, tryBlock, htC]
  have hcallB : call_ai_service cbB now ob = (none, cbB.on_failure now) := by
    rcases hob with h | h <;>
      simp [h, call_ai_service, before_request_not_open hB, tryBlock]
  constructor <;> simp [dispatchRound, hA, hB, hC, hcallA, hcallB, hcallC]

/-- Tier-2 Gemini entry of `REAL_CONFIG_DICT`. -/
def aiGemini : AIConfig :=
  { name := "Gemini"
    url := "https://generativelanguage.googleapis.com/v1/models/gemini-pro:generateContent"
    api_key_env := "GEMINI_API_KEY"
    weight := 14/10
    tier := 2
    model := none }

/-- Tier-3 OpenAI entry of `REAL_CONFIG_DICT`. -/
def aiOpenAI : AIConfig :=
  { name := "OpenAI"
    url := "https://api.openai.com/v1/chat/completions"
    api_key_env := "OPENAI_API_KEY"
    weight := 15/10
    tier := 3
    model := none }

theorem c7_failure_isolation_witness :
    (dispatchRound
      [(aiGroq, CircuitBreaker.init "Groq" 3 60 300, CallOutcome.success "alpha"),
       (aiGemini, CircuitBreaker.init "Gemini" 3 60 300, CallOutcome.transportError),
       (aiOpenAI, CircuitBreaker.init "OpenAI" 3 60 300, CallOutcome.success "gamma")] 5).1 =
      [("Groq", "alpha"), ("OpenAI", "gamma")] ∧
    (dispatchRound
      [(aiGroq, CircuitBreaker.init "Groq" 3 60 300, CallOutcome.success "alpha"),
       (aiGemini, CircuitBreaker.init "Gemini" 3 60 300, CallOutcome.transportError),
       (aiOpenAI, CircuitBreaker.init "OpenAI" 3 60 300, CallOutcome.success "gamma")] 5).2 =
      [("Groq", (CircuitBreaker.init "Groq" 3 60 300).on_success 5),
       ("Gemini", (CircuitBreaker.init "Gemini" 3 60 300).on_failure 5),
       ("OpenAI", (CircuitBreaker.init "OpenAI" 3 60 300).on_success 5)] :=
  c7_failure_isolation aiGroq aiGemini aiOpenAI
    (CircuitBreaker.init "Groq" 3 60 300) (CircuitBreaker.init "Gemini" 3 60 300)
    (CircuitBreaker.init "OpenAI" 3 60 300) "alpha" "gamma" CallOutcome.transportError 5
    (by decide) (by decide) (by decide) (by decide) (by decide) (Or.inr rfl)

/-- Claim C9: constructing the orchestrator over a backend whose API-key
environment variable is unset (`os.getenv` returns `None`) completes:
the backend is stored with the `"DUMMY_KEY"` placeholder and a single
`on_failure()` is recorded on its fresh breaker, so its failure counter
starts at 1 and — as long as the failure threshold exceeds 1 — the
breaker remains `CLOSED`, hence the backend still passes the
`not cb.is_open()` dispatch filter. -/
theorem c9_missing_key_init (config : OrchestratorConfig) (env : String → Option String)
    (now : ℚ) (ai : AIConfig) (hmissing : env ai.api_key_env = none) :
    (initService config env now ai).2 = "DUMMY_KEY" ∧
    (initService config env now ai).1.failure_count = 1 ∧
    (1 < config.circuit_breaker_failure_threshold →
      (initService config env now ai).1.state = CBState.CLOSED ∧
      (initService config env now ai).1.is_open = false) := by
  refine ⟨?_, ?_, fun hgt => ?_⟩
  · simp [initService, envTruthy, hmissing]
  · simp [initService, envTruthy, hmissing, on_failure_count, CircuitBreaker.init]
  · have hth : ¬ (0 + 1 ≥ config.circuit_breaker_failure_threshold) := by omega
    constructor <;>
      simp [initService, envTruthy, hmissing, CircuitBreaker.init,
        CircuitBreaker.on_failure, CircuitBreaker.is_open, hth]

/-- A one-service configuration with the default breaker tuning of
`REAL_CONFIG_DICT`. -/
def cfgGroqOnly : OrchestratorConfig :=
  { ai_services := [aiGroq]
    timeout_per_ai := 30
    circuit_breaker_failure_threshold := 3
    circuit_breaker_recovery_timeout := 60
    circuit_breaker_reset_timeout := 300 }

theorem c9_missing_key_init_witness :
    (initService cfgGroqOnly (fun _ => none) 0 aiGroq).2 = "DUMMY_KEY" ∧
    (initService cfgGroqOnly (fun _ => none) 0 aiGroq).1.failure_count = 1 ∧
    (initService cfgGroqOnly (fun _ => none) 0 aiGroq).1.state = CBState.CLOSED ∧
    (initService cfgGroqOnly (fun _ => none) 0 aiGroq).1.is_open = false := by
  have h := c9_missing_key_init cfgGroqOnly (fun _ => none) 0 aiGroq rfl
  exact ⟨h.1, h.2.1, (h.2.2 (by decide)).1, (h.2.2 (by decide)).2⟩

/-- Python `str.split()` with no separator, as used by
`quality_controller.py`: split on whitespace runs, discarding empty
pieces; `acc` holds the (reversed) word currently being read. -/
def splitWsAux : List Char → List Char → List (List Char)
  | [], acc => if acc = [] then [] else [acc.reverse]
  | c :: rest, acc =>
      if c.isWhitespace then
        (if acc = [] then [] else [acc.reverse]) ++ splitWsAux rest []
      else splitWsAux rest (c :: acc)

/-- `len(content.split())` in `quality_controller.py`. -/
def word_count (content : String) : Nat :=
  (splitWsAux content.toList []).length

/-- Python `content.count(c)` for a one-character needle. -/
def countChar (content : String) (c : Char) : Nat :=
  (content.toList.filter (fun x => x = c)).length

/-- `content.count('.') + content.count('!') + content.count('?')`. -/
def sentence_count (content : String) : Nat :=
  countChar content '.' + countChar content '!' + countChar content '?'

/-- Python `str.count(sub)` for a non-empty needle: the number of
non-overlapping occurrences, scanning left to right. -/
def countOccsAux (pat : List Char) : List Char → Nat
  | [] => 0
  | c :: rest =>
      if pat.isPrefixOf (c :: rest) then
        1 + countOccsAux pat (rest.drop (pat.length - 1))
      else
        countOccsAux pat rest
termination_by s => s.length
decreasing_by
  · simp [List.length_drop]
    omega
  · simp

/-- Python `str.count(sub)` (for the empty needle Python returns
`len(s) + 1`; the quality controller only ever counts non-empty
needles). -/
def countOccs (s pat : String) : Nat :=
  if pat = "" then s.toList.length + 1 else countOccsAux pat.toList s.toList

/-- Python `str.lower()`. -/
def pyLower (s : String) : String :=
  String.mk (s.toList.map Char.toLower)

/-- Thresholds and keyword set fixed by `QualityController.__init__`. -/
structure QualityController where
  min_word_count : Nat
  max_word_count : Nat
  min_sentence_count : Nat
  required_keywords : List String
deriving Repr

/-- The controller as constructed in `quality_controller.py`. -/
def QualityController.init : QualityController :=
  { min_word_count := 600
    max_word_count := 1500
    min_sentence_count := 15
    required_keywords := ["artificial intelligence", "machine learning", "technology",
      "AI", "intelligence", "learning", "model", "data"] }

/-- `QualityController._calculate_keyword_density`: the division is
guarded by the `total_words == 0` early return.  Occurrences are counted
in the lower-cased content (so the upper-case `"AI"` entry never
matches). -/
def QualityController.keyword_density (qc : QualityController) (content : String) : ℚ :=
  let content_lower := pyLower content
  let total_words := word_count content
  if total_words = 0 then 0
  else
    let keyword_count := (qc.required_keywords.map (fun k => countOccs content_lower k)).sum
    (keyword_count : ℚ) / (total_words : ℚ)

/-- `QualityController._calculate_readability`: guarded against zero
sentences or zero words. -/
def readability_score (content : String) : ℚ :=
  let sentences := sentence_count content
  let words := word_count content
  if sentences = 0 ∨ words = 0 then 0
  else
    let avg_sentence_length := (words : ℚ) / (sentences : ℚ)
    max 0 (20 - avg_sentence_length / 5)

/-- The `metrics` dictionary of `analyze_content_quality`. -/
structure QualityMetrics where
  word_count : Nat
  sentence_count : Nat
  paragraph_count : Nat
  keyword_density : ℚ
  readability_score : ℚ
deriving Repr

/-- The four issue categories produced by
`QualityController._identify_issues` (the source renders each as a
human-readable Spanish string carrying the same datum). -/
inductive QualityIssue where
  | tooShort (wc : Nat)
  | tooLong (wc : Nat)
  | tooFewSentences (sc : Nat)
  | lowKeywordDensity (d : ℚ)
deriving DecidableEq, Repr

/-- `QualityController._identify_issues`: every violated criterion is
reported, in source order. -/
def QualityController.identify_issues (qc : QualityController)
    (m : QualityMetrics) : List QualityIssue :=
  (if m.word_count < qc.min_word_count then [QualityIssue.tooShort m.word_count] else []) ++
  (if m.word_count > qc.max_word_count then [QualityIssue.tooLong m.word_count] else []) ++
  (if m.sentence_count < qc.min_sentence_count then
    [QualityIssue.tooFewSentences m.sentence_count] else []) ++
  (if m.keyword_density < 2/100 then [QualityIssue.lowKeywordDensity m.keyword_density] else [])

/-- `QualityController.analyze_content_quality`: computes the metrics,
the pass/fail verdict, and the issue list (empty when passing).  The
`title` argument is accepted and unused, as in the source. -/
def QualityController.analyze_content_quality (qc : QualityController)
    (content title : String) : Bool × QualityMetrics × List QualityIssue :=
  let metrics : QualityMetrics :=
    { word_count := word_count content
      sentence_count := sentence_count content
      paragraph_count := countOccs content "\n\n" + 1
      keyword_density := qc.keyword_density content
      readability_score := readability_score content }
  let passes_quality : Bool :=
    decide (metrics.word_count ≥ qc.min_word_count) &&
    decide (metrics.word_count ≤ qc.max_word_count) &&
    decide (metrics.sentence_count ≥ qc.min_sentence_count) &&
    decide (metrics.keyword_density ≥ 2/100)
  (passes_quality, metrics, if passes_quality then [] else qc.identify_issues metrics)

/-- Claim C8: the quality gate passes exactly when the word count
(whitespace-split) lies in [600, 1500], the sentence count (terminal
punctuation marks) is at least 15, and the keyword density is at least
0.02.  The boundary facts of the claim are instances: a 599-word text
violates the first conjunct and a 600-word text with at least 15
sentences and density at least 0.02 satisfies all three. -/
theorem c8_quality_gate_iff (content title : String) :
    (QualityController.init.analyze_content_quality content title).1 = true ↔
    (600 ≤ word_count content ∧ word_count content ≤ 1500 ∧
     15 ≤ sentence_count content ∧
     (2 : ℚ)/100 ≤ QualityController.init.keyword_density content) := by
  simp [QualityController.analyze_content_quality, QualityController.init,
    Bool.and_eq_true, decide_eq_true_iff, and_assoc]

/-- Claim C10: the metric helpers are guarded against division by zero:
the keyword density of a zero-word text is 0, and the readability score
is 0 whenever the sentence count or the word count is 0; on any input
(the empty string included) the analysis is a total function. -/
theorem c10_guarded_metrics (content : String) :
    (word_count content = 0 → QualityController.init.keyword_density content = 0) ∧
    ((sentence_count content = 0 ∨ word_count content = 0) →
      readability_score content = 0) := by
  constructor
  · intro h
    simp [QualityController.keyword_density, h]
  · intro h
    rcases h with h | h <;> simp [readability_score, h]

theorem c10_guarded_metrics_witness :
    QualityController.init.keyword_density "" = 0 ∧ readability_score "" = 0 :=
  ⟨(c10_guarded_metrics "").1 (by decide), (c10_guarded_metrics "").2 (Or.inr (by decide))⟩

/-- A Python value handed to `ConsensusEngine.get_consensus` as a
response; only strings take part in the consensus, anything else is
logged and skipped. -/
inductive PyValue where
  | str (s : String)
  | other
deriving DecidableEq, Repr

/-- `self.ai_weights.get(ai_name, 1.0)`: the weight stored for the
backend, defaulting to 1.  (Service names are distinct in the
configuration, so first-match lookup agrees with the Python dict.) -/
def weightOf (ws : List (String × ℚ)) (name : String) : ℚ :=
  match ws with
  | [] => 1
  | (n, w) :: rest => if n = name then w else weightOf rest name

/-- The `weighted_responses` list built by `ConsensusEngine.get_consensus`:
each string response is appended `int(weight * 10)` times (Python list
multiplication by a non-positive factor yields the empty list, matching
`Int.toNat` of the floor). -/
def weightedVotes (ws : List (String × ℚ)) : List (String × PyValue) → List String
  | [] => []
  | (n, v) :: rest =>
      (match v with
        | PyValue.str s => List.replicate (⌊weightOf ws n * 10⌋).toNat s
        | PyValue.other => []) ++ weightedVotes ws rest

/-- Python `" ".join(xs)`. -/
def pyJoinSpace : List String → String
  | [] => ""
  | [x] => x
  | x :: rest => x ++ " " ++ pyJoinSpace rest

/-- Python `str.strip()`: drop leading and trailing whitespace. -/
def pyStrip (s : String) : String :=
  String.mk (((s.toList.dropWhile Char.isWhitespace).reverse.dropWhile
    Char.isWhitespace).reverse)

/-- `ConsensusEngine`: holds the name → weight mapping built by its
constructor from the service configs. -/
structure ConsensusEngine where
  ai_weights : List (String × ℚ)
deriving Repr

/-- `ConsensusEngine.__init__`. -/
def ConsensusEngine.init (ai_configs : List AIConfig) : ConsensusEngine :=
  { ai_weights := ai_configs.map (fun c => (c.name, c.weight)) }

/-- `ConsensusEngine.get_consensus` (lines 153-188 of
`consensus_engine.py`): `None` for an empty response list, `None` when
the weighted vote list is empty, otherwise the whitespace-stripped
space-join of the weighted vote list. -/
def ConsensusEngine.get_consensus (e : ConsensusEngine)
    (responses : List (String × PyValue)) : Option String :=
  if responses = [] then none
  else
    let weighted_responses := weightedVotes e.ai_weights responses
    if weighted_responses = [] then none
    else some (pyStrip (pyJoinSpace weighted_responses))

/-- The two-response example of the spec's selector-determinism test,
with both weights 1. -/
def ceAB : ConsensusEngine :=
  { ai_weights := [("A", 1), ("B", 1)] }

/-- Responses of the selector-determinism example: under the claimed
max-score selection, backend A's text must win. -/
def rsAB : List (String × PyValue) :=
  [("A", PyValue.str "One. Two. Three."), ("B", PyValue.str "Short.")]

lemma weightOf_ceAB_A : (⌊weightOf ceAB.ai_weights "A" * 10⌋).toNat = 10 := by
  norm_num [weightOf, ceAB]
  decide

lemma weightOf_ceAB_B : (⌊weightOf ceAB.ai_weights "B" * 10⌋).toNat = 10 := by
  norm_num [weightOf, ceAB]
  decide

lemma votes_ceAB : weightedVotes ceAB.ai_weights rsAB =
    List.replicate 10 "One. Two. Three." ++ List.replicate 10 "Short." := by
  simp [weightedVotes, rsAB, weightOf_ceAB_A, weightOf_ceAB_B]

set_option maxRecDepth 8000 in
/-- Claim C2 fails on the code: on the non-empty response list
`[("A", "One. Two. Three."), ("B", "Short.")]` with both weights 1, the
claimed selection would return A's text (the strictly highest score),
but `get_consensus` returns a weighted concatenation that is none of the
input texts (and not `none` either). -/
theorem c2_counterexample :
    ceAB.get_consensus rsAB ≠ none ∧
    ceAB.get_consensus rsAB ≠ some "One. Two. Three." ∧
    ceAB.get_consensus rsAB ≠ some "Short." := by
  have hres : ceAB.get_consensus rsAB = some (pyStrip (pyJoinSpace
      (List.replicate 10 "One. Two. Three." ++ List.replicate 10 "Short."))) := by
    simp only [ConsensusEngine.get_consensus, votes_ceAB]
    decide
  rw [hres]
  refine ⟨by simp, by decide, by decide⟩

lemma weightedVotes_eq_nil_iff (ws : List (String × ℚ)) (rs : List (String × PyValue)) :
    weightedVotes ws rs = [] ↔
    ∀ p ∈ rs, ∀ s : String, p.2 = PyValue.str s → (⌊weightOf ws p.1 * 10⌋).toNat = 0 := by
  induction rs with
  | nil => simp [weightedVotes]
  | cons p rest ih =>
      rcases p with ⟨n, v⟩
      cases v <;> simp [weightedVotes, ih, List.replicate_eq_nil_iff]

/-- Claim C2 amended: `get_consensus` performs a weighted concatenation,
not a selection.  It returns `none` exactly when every response is
either a non-string or contributes `int(weight * 10) = 0` copies (in
particular for the empty list); otherwise it returns the
whitespace-stripped space-join of each string response repeated
`int(weight * 10)` times, in input order — note empty-after-trim string
responses are not filtered out. -/
theorem c2_weighted_concatenation (e : ConsensusEngine)
    (responses : List (String × PyValue)) :
    (e.get_consensus responses = none ↔
      ∀ p ∈ responses, ∀ s : String, p.2 = PyValue.str s →
        (⌊weightOf e.ai_weights p.1 * 10⌋).toNat = 0) ∧
    (weightedVotes e.ai_weights responses ≠ [] →
      e.get_consensus responses =
        some (pyStrip (pyJoinSpace (weightedVotes e.ai_weights responses)))) := by
  constructor
  · rw [← weightedVotes_eq_nil_iff]
    by_cases hr : responses = []
    · subst hr
      simp [ConsensusEngine.get_consensus, weightedVotes]
    · by_cases hv : weightedVotes e.ai_weights responses = [] <;>
        simp [ConsensusEngine.get_consensus, hr, hv]
  · intro hv
    have hr : responses ≠ [] := by
      intro h
      subst h
      exact hv rfl
    simp [ConsensusEngine.get_consensus, hr, hv]

theorem c2_weighted_concatenation_witness :
    ceAB.get_consensus [("A", PyValue.other)] = none ∧
    ceAB.get_consensus rsAB =
      some (pyStrip (pyJoinSpace (weightedVotes ceAB.ai_weights rsAB))) :=
  ⟨(c2_weighted_concatenation ceAB [("A", PyValue.other)]).1.mpr (by simp),
   (c2_weighted_concatenation ceAB rsAB).2
     (by simp [votes_ceAB, List.replicate_eq_nil_iff])⟩

/-- Python truthiness of the orchestrator's `Optional[str]` result:
`None` and the empty string are both falsy. -/
def truthyStr : Option String → Bool
  | none => false
  | some s => s ≠ ""

/-- The fixed feedback clause appended to the prompt template after a
quality failure (line 367 of `main.py`). -/
def feedbackClause : String :=
  "\n\nFEEDBACK: El contenido anterior no cumplió con los estándares de calidad. Por favor, mejora la densidad de keywords, la estructura de párrafos y evita repeticiones. Asegúrate de que el contenido sea más profundo y original."

/-- The quality-retry loop of `process_article_with_ai` (lines 353-370
of `main.py`).  `gen i template` is the response
`ai_orchestrator.get_consensus` produces on attempt `i` for the prompt
built from `template` (the `.format` interpolation of topic and
reference content is folded into `gen`).  The state is the attempt
index, the remaining fuel, the current template and the running
`current_ai_response` (overwritten by every attempt); the result is the
final `current_ai_response` together with whether some attempt passed
the quality gate (the loop breaks on the first pass). -/
def qualityLoopAux (gen : Nat → String → Option String) (topic : String) :
    Nat → Nat → String → Option String → Option String × Bool
  | _, 0, _, current => (current, false)
  | i, fuel + 1, template, _ =>
      match gen i template with
      | some t =>
          if t ≠ "" then
            if (QualityController.init.analyze_content_quality t topic).1 then
              (some t, true)
            else
              qualityLoopAux gen topic (i + 1) fuel (template ++ feedbackClause) (some t)
          else
            qualityLoopAux gen topic (i + 1) fuel template (some t)
      | none => qualityLoopAux gen topic (i + 1) fuel template none

/-- `max_retries = 3` in `process_article_with_ai`. -/
def max_retries : Nat := 3

/-- The per-topic tail of `process_article_with_ai`: after the loop
(`current_ai_response` initialised to `None` on line 349),
`best_ai_response = current_ai_response`, and the article update is
stored exactly when `best_ai_response` is truthy (lines 378-406);
`none` means nothing is stored for this topic. -/
def processTopicStored (gen : Nat → String → Option String)
    (topic template : String) : Option String :=
  let r := (qualityLoopAux gen topic 0 max_retries template none).1
  if truthyStr r then r else none

lemma gate_short_false :
    (QualityController.init.analyze_content_quality "Short text." "topic").1 = false := by
  have hwc : word_count "Short text." = 2 := by decide
  simp [QualityController.analyze_content_quality, QualityController.init, hwc]

lemma loop_short : qualityLoopAux (fun _ _ => some "Short text.") "topic" 0
    max_retries "T" none = (some "Short text.", false) := by
  simp [max_retries, qualityLoopAux, gate_short_false]

/-- Claim C1 fails on the code: with every attempt returning the fixed
response "Short text.", no attempt passes the quality gate (its word
count is 2), the loop exhausts all `max_retries = 3` attempts — yet
`process_article_with_ai` stores that non-passing response (the last
`current_ai_response`) instead of storing none. -/
theorem c1_counterexample :
    qualityLoopAux (fun _ _ => some "Short text.") "topic" 0 max_retries "T" none =
      (some "Short text.", false) ∧
    (QualityController.init.analyze_content_quality "Short text." "topic").1 = false ∧
    processTopicStored (fun _ _ => some "Short text.") "topic" "T" =
      some "Short text." := by
  refine ⟨loop_short, gate_short_false, ?_⟩
  simp [processTopicStored, loop_short, truthyStr]

lemma loop_no_pass_retains (gen : Nat → String → Option String) (topic : String) :
    ∀ (fuel i : Nat) (template : String) (current : Option String),
    (∀ s : String, current = some s → s ≠ "" →
      (QualityController.init.analyze_content_quality s topic).1 = false) →
    ∀ t : String, qualityLoopAux gen topic i fuel template current = (some t, false) →
    t ≠ "" → (QualityController.init.analyze_content_quality t topic).1 = false := by
  intro fuel
  induction fuel with
  | zero =>
      intro i template current hcur t hres ht
      simp [qualityLoopAux] at hres
      exact hcur t hres ht
  | succ fuel ih =>
      intro i template current hcur t hres ht
      rw [qualityLoopAux] at hres
      cases hgen : gen i template with
      | none =>
          rw [hgen] at hres
          dsimp only at hres
          exact ih (i + 1) template none (by simp) t hres ht
      | some u =>
          rw [hgen] at hres
          dsimp only at hres
          by_cases hu : u = ""
          · rw [if_neg (by simp [hu])] at hres
            refine ih (i + 1) template (some u) ?_ t hres ht
            intro s hs hsne
            rw [hu] at hs
            exact absurd ((Option.some_inj).1 hs).symm hsne
          · rw [if_pos hu] at hres
            by_cases hq : (QualityController.init.analyze_content_quality u topic).1 = true
            · rw [if_pos hq] at hres
              simp at hres
            · rw [if_neg hq] at hres
              refine ih (i + 1) (template ++ feedbackClause) (some u) ?_ t hres ht
              intro s hs _
              rw [(Option.some_inj).1 hs] at hq
              exact Bool.eq_false_iff.mpr hq

/-- Claim C1 amended: exhausting the retry loop without any attempt
passing the quality gate does not store none whenever the final attempt
left a truthy response: that response — which failed the gate — is
stored and published as a fallback; none is stored only when the final
`current_ai_response` is falsy. -/
theorem c1_retained_fallback (gen : Nat → String → Option String)
    (topic template t : String)
    (hres : qualityLoopAux gen topic 0 max_retries template none = (some t, false))
    (ht : t ≠ "") :
    processTopicStored gen topic template = some t ∧
    (QualityController.init.analyze_content_quality t topic).1 = false := by
  constructor
  · simp [processTopicStored, hres, truthyStr, ht]
  · exact loop_no_pass_retains gen topic max_retries 0 template none (by simp) t hres ht

theorem c1_retained_fallback_witness :
    processTopicStored (fun _ _ => some "Short text.") "topic" "T" = some "Short text." ∧
    (QualityController.init.analyze_content_quality "Short text." "topic").1 = false :=
  c1_retained_fallback (fun _ _ => some "Short text.") "topic" "T" "Short text."
    loop_short (by decide)

end VoApp
